import Mathlib

/-!
Shallow embedding of the core of `backend/main.py` (RTSP violence-detection
service): the sliding frame buffer, the detection-loop guard, the inference
threshold decision, the fps update guard, the Telegram notification state
machine, the stream registry, the WebSocket connection manager, and the
result-draining orchestrator.  Machine floats of the source are modelled as
exact rationals; Python dicts keyed by stream id are modelled as functions
`String → Option _`; Python exceptions are modelled with `Except`.
-/

namespace ViolenceRecognition

/-! ## FrameBuffer (`RTSPProcessor.process_frame`, main.py lines 263–281)

Frames are kept abstract (`α`): the source normalizes each frame to a
`(3,224,224)` float tensor, but only the list structure matters for the
buffer claims. -/

/-- Python's `l[-n:]` slice for a nonnegative `n`: for `n = 0` it is `l[0:]`,
i.e. the whole list; for `n > 0` it is the last `min n l.length` elements. -/
def pySliceLast (l : List α) (n : Nat) : List α :=
  if n = 0 then l else l.drop (l.length - n)

/-- `RTSPProcessor.process_frame`: append the (normalized) frame, then, if the
buffer is longer than the configured size, keep `frame_buffer[-size:]`. -/
def process_frame (buffer : List α) (buffer_size : Nat) (frame : α) : List α :=
  let buffer := buffer ++ [frame]
  if buffer.length > buffer_size then pySliceLast buffer buffer_size else buffer

/-- The frame buffer produced by pushing `frames` (in order) through
`process_frame`, starting from the empty buffer set up by `start()`. -/
def push_all (buffer_size : Nat) (frames : List α) : List α :=
  frames.foldl (fun b f => process_frame b buffer_size f) []

/-- The most recent `n` elements of `l` in arrival order
(all of `l` when `l.length ≤ n`). -/
def lastN (l : List α) (n : Nat) : List α :=
  l.drop (l.length - n)

theorem lastN_length (l : List α) (n : Nat) :
    (lastN l n).length = l.length - (l.length - n) := by
  simp [lastN]

theorem process_frame_of_lt {buffer : List α} {c : Nat} (f : α)
    (h : buffer.length < c) :
    process_frame buffer c f = buffer ++ [f] := by
  have : (buffer ++ [f]).length ≤ c := by simp; omega
  simp [process_frame]
  omega

theorem process_frame_of_eq {buffer : List α} {c : Nat} (f : α)
    (hc : 0 < c) (h : buffer.length = c) :
    process_frame buffer c f = buffer.drop 1 ++ [f] := by
  have hlen : (buffer ++ [f]).length = c + 1 := by simp [h]
  have hgt : (buffer ++ [f]).length > c := by omega
  have hslice : pySliceLast (buffer ++ [f]) c = (buffer ++ [f]).drop 1 := by
    unfold pySliceLast
    rw [if_neg (by omega), hlen]
    congr 1
    omega
  have hdrop : (buffer ++ [f]).drop 1 = buffer.drop 1 ++ [f] := by
    apply List.drop_append_of_le_length
    omega
  simp only [process_frame, if_pos hgt, hslice, hdrop]

/-- One push keeps the invariant `length ≤ buffer_size` (for positive size). -/
theorem process_frame_length_le {buffer : List α} {c : Nat} (f : α)
    (hc : 0 < c) (h : buffer.length ≤ c) :
    (process_frame buffer c f).length ≤ c := by
  rcases lt_or_eq_of_le h with h' | h'
  · rw [process_frame_of_lt f h']
    simp
    omega
  · rw [process_frame_of_eq f hc h']
    simp
    omega

/-- One push maps "most recent `c` of `l`" to "most recent `c` of `l ++ [f]`". -/
theorem process_frame_lastN (l : List α) (f : α) {c : Nat} (hc : 0 < c) :
    process_frame (lastN l c) c f = lastN (l ++ [f]) c := by
  by_cases h : l.length < c
  · have h1 : lastN l c = l := by
      unfold lastN
      rw [Nat.sub_eq_zero_of_le (le_of_lt h), List.drop_zero]
    have h2 : lastN (l ++ [f]) c = l ++ [f] := by
      unfold lastN
      rw [Nat.sub_eq_zero_of_le (by simp; omega), List.drop_zero]
    rw [h1, h2, process_frame_of_lt f h]
  · push_neg at h
    have hlast : (lastN l c).length = c := by
      rw [lastN_length]; omega
    rw [process_frame_of_eq f hc hlast]
    unfold lastN
    have h1 : (l ++ [f]).length - c = l.length - c + 1 := by simp; omega
    have hle : l.length - c + 1 ≤ l.length := by omega
    rw [List.drop_drop, h1, List.drop_append_of_le_length hle]

/-- For a positive configured size, the buffer built by pushing `frames` from
empty is exactly the most recent `min c frames.length` frames, in order. -/
theorem push_all_eq_lastN {c : Nat} (hc : 0 < c) (frames : List α) :
    push_all c frames = lastN frames c := by
  induction frames using List.reverseRecOn with
  | nil => simp [push_all, lastN]
  | append_singleton l f ih =>
    unfold push_all at ih ⊢
    rw [List.foldl_append, ih, List.foldl_cons, List.foldl_nil,
      process_frame_lastN l f hc]

/-- For a positive configured size, the buffer length never exceeds it. -/
theorem push_all_length_le {c : Nat} (hc : 0 < c) (frames : List α) :
    (push_all c frames).length ≤ c := by
  rw [push_all_eq_lastN hc, lastN_length]
  omega

/-! ## Detection loop guard (`RTSPProcessor.detection_loop` /
`RTSPProcessor.detect_violence`, main.py lines 287–378) -/

/-- `RTSPProcessor.detect_violence`, reduced to what is observable about the
inference collaborator: re-read the buffer under the lock and, if it holds
fewer frames than the configured size, return `None` without calling the
model; otherwise call `predict` on a copy of the buffer (returned here as the
window handed to the collaborator). -/
def detect_violence (buffer : List α) (buffer_size : Nat) : Option (List α) :=
  if buffer.length < buffer_size then none else some buffer

/-- One iteration of `RTSPProcessor.detection_loop`: read the buffer length
under the lock and run `detect_violence` only when `buffer_size >= current
buffer size`; otherwise no inference call is made and no result is produced.
Returns the window passed to the inference collaborator, if any. -/
def detection_loop_iter (buffer : List α) (buffer_size : Nat) : Option (List α) :=
  if buffer.length ≥ buffer_size then detect_violence buffer buffer_size else none

/-! ## Inference threshold (`TritonClient.predict`, main.py lines 164–196)

The softmax output `violence_prob = probs[0][1]` is taken as an arbitrary
rational; `predict` returns `(is_violence, violence_prob)` with
`is_violence = violence_prob > threshold`. -/

/-- The decision part of `TritonClient.predict`: compare the violence
probability with the configured `confidence_threshold` (strict `>`). -/
def predict_decision (violence_prob threshold : ℚ) : Bool × ℚ :=
  (violence_prob > threshold, violence_prob)

/-! ## fps update (`RTSPProcessor.run_detection_loop`, main.py lines 412–416) -/

/-- The fps update of the capture loop: `if current_time - last_time > 0:
self.fps = 1.0 / (current_time - last_time)`; otherwise `self.fps` keeps its
previous value. -/
def update_fps (fps last_time current_time : ℚ) : ℚ :=
  if current_time - last_time > 0 then 1 / (current_time - last_time) else fps

/-! ## TelegramService (`TelegramService.should_send_notification`,
main.py lines 612–751)

The per-stream dicts `violence_events` and `last_notification_time` are
modelled as functions `String → Option _`; the Python attribute
`current_detection_confidence`, which exists only after the first
`handle_detection` call (`hasattr` check at line 728), is an `Option ℚ`.
Times and confidences are exact rationals. -/

/-- One entry of `TelegramService.violence_events` (the dict literal at
main.py lines 714–719). -/
structure EventInfo where
  start_time : ℚ
  last_detection : ℚ
  notification_count : Nat
  max_confidence : ℚ
deriving DecidableEq, Repr

/-- The mutable state of `TelegramService` that
`should_send_notification` reads and writes. -/
structure TelegramState where
  notification_interval : ℚ
  max_notifications : Nat
  violence_events : String → Option EventInfo
  last_notification_time : String → Option ℚ
  current_detection_confidence : Option ℚ

/-- Point update of a stream-keyed dict. -/
def dictInsert (m : String → Option β) (k : String) (v : β) :
    String → Option β :=
  fun s => if s = k then some v else m s

/-- Deletion from a stream-keyed dict (`del m[k]`, guarded by `k in m` in the
source, so deleting an absent key leaves the dict unchanged). -/
def dictErase (m : String → Option β) (k : String) : String → Option β :=
  fun s => if s = k then none else m s

/-- The adaptive interval of main.py lines 740–744:
`base_interval * (1 + notification_count * 0.5)`, clamped to 1800 s. -/
def adaptive_interval (base_interval : ℚ) (notification_count : Nat) : ℚ :=
  min (base_interval * (1 + (notification_count : ℚ) * (1/2))) 1800

/-- `TelegramService.should_send_notification(stream_id, is_violence)` at
time `current_time`: returns the send decision and the updated service
state.  Mirrors main.py lines 692–751, including the in-place update of the
episode's `last_detection` and `max_confidence` before the cap check. -/
def should_send_notification (st : TelegramState) (stream_id : String)
    (is_violence : Bool) (current_time : ℚ) : Bool × TelegramState :=
  if !is_violence then
    -- a non-event discards any open episode (the final notification is sent
    -- asynchronously) and clears the last-notification clock
    (false,
      { st with
        violence_events := dictErase st.violence_events stream_id
        last_notification_time := dictErase st.last_notification_time stream_id })
  else
    match st.violence_events stream_id with
    | none =>
      -- new violence event
      let event_info : EventInfo :=
        { start_time := current_time
          last_detection := current_time
          notification_count := 0
          max_confidence := 0 }
      (true,
        { st with
          violence_events := dictInsert st.violence_events stream_id event_info
          last_notification_time :=
            dictInsert st.last_notification_time stream_id current_time })
    | some event_info =>
      -- ongoing event: update last_detection and max_confidence in place
      let event_info1 : EventInfo := { event_info with last_detection := current_time }
      let event_info2 : EventInfo :=
        match st.current_detection_confidence with
        | some conf =>
          { event_info1 with max_confidence := max event_info1.max_confidence conf }
        | none => event_info1
      let st1 : TelegramState :=
        { st with
          violence_events := dictInsert st.violence_events stream_id event_info2 }
      let last_notification : ℚ := (st1.last_notification_time stream_id).getD 0
      let time_since_last : ℚ := current_time - last_notification
      if event_info2.notification_count ≥ st1.max_notifications then
        (false, st1)
      else if time_since_last ≥
          adaptive_interval st1.notification_interval event_info2.notification_count then
        let event_info3 : EventInfo :=
          { event_info2 with notification_count := event_info2.notification_count + 1 }
        (true,
          { st1 with
            violence_events := dictInsert st1.violence_events stream_id event_info3
            last_notification_time :=
              dictInsert st1.last_notification_time stream_id current_time })
      else
        (false, st1)

theorem dictInsert_self (m : String → Option β) (k : String) (v : β) :
    dictInsert m k v k = some v := by
  simp [dictInsert]

theorem dictInsert_violence_events (st : TelegramState) (k : String) (v : EventInfo) :
    ({ st with violence_events := dictInsert st.violence_events k v } :
      TelegramState).violence_events k = some v := by
  simp [dictInsert]

/-- An idle Telegram service (no open episode, no notification clock) with
default interval 300 s and cap 5, observing a detection of confidence 0.8
(`handle_detection` stores it in `current_detection_confidence` before
calling `should_send_notification`). -/
def idle_test_state : TelegramState :=
  { notification_interval := 300
    max_notifications := 5
    violence_events := fun _ => none
    last_notification_time := fun _ => none
    current_detection_confidence := some (4/5) }

/-- A Telegram service with an episode open on stream "cam" that has already
sent `count` notifications, last notification at time 0. -/
def ongoing_test_state (count : Nat) : TelegramState :=
  { notification_interval := 300
    max_notifications := 5
    violence_events := fun s =>
      if s = "cam" then
        some { start_time := 0, last_detection := 0,
               notification_count := count, max_confidence := 9/10 }
      else none
    last_notification_time := fun s => if s = "cam" then some 0 else none
    current_detection_confidence := some (4/5) }

/-! ## Claim theorems: notification state machine -/

/-- C1 counterexample: an idle stream receives an event detection of
confidence 0.8 (stored in `current_detection_confidence` by
`handle_detection`), yet the newly opened episode records
`max_confidence = 0.0`, not the detection's confidence — the dict literal at
main.py line 718 hard-codes `0.0` and the max-update at line 729 runs only
for already-open episodes. -/
theorem new_episode_ignores_detection_confidence :
    (should_send_notification idle_test_state "cam" true 1000).2.violence_events "cam" =
      some { start_time := 1000, last_detection := 1000,
             notification_count := 0, max_confidence := 0 } ∧
    (0 : ℚ) ≠ 4/5 := by
  constructor
  · simp [should_send_notification, idle_test_state, dictInsert]
  · norm_num

/-- C1 (amended): an event detection on a stream with no open episode opens
an episode with `start_time = now`, `last_detection = now`,
`notification_count = 0` and `max_confidence = 0.0` (not the detection's
confidence), sets the last-notification clock to `now`, and the call returns
a positive send decision (the immediate "started" notification). -/
theorem new_episode_opened_on_idle_event (st : TelegramState)
    (stream_id : String) (t : ℚ)
    (h : st.violence_events stream_id = none) :
    (should_send_notification st stream_id true t).1 = true ∧
    (should_send_notification st stream_id true t).2.violence_events stream_id =
      some { start_time := t, last_detection := t,
             notification_count := 0, max_confidence := 0 } ∧
    (should_send_notification st stream_id true t).2.last_notification_time
      stream_id = some t := by
  simp [should_send_notification, h, dictInsert]

/-- Witness for `new_episode_opened_on_idle_event` on the idle test state. -/
theorem new_episode_opened_on_idle_event_witness :
    (should_send_notification idle_test_state "s" true 7).1 = true ∧
    (should_send_notification idle_test_state "s" true 7).2.violence_events "s" =
      some { start_time := 7, last_detection := 7,
             notification_count := 0, max_confidence := 0 } ∧
    (should_send_notification idle_test_state "s" true 7).2.last_notification_time
      "s" = some 7 :=
  new_episode_opened_on_idle_event idle_test_state "s" 7 rfl

/-- C6 (confirmed): for an open episode below the notification cap, the
required spacing is `min(base_interval * (1 + notification_count * 0.5),
1800)`; a "continuing" notification is emitted exactly when the elapsed time
since the last notification reaches this adaptive interval, and then
`notification_count` is incremented and the last-notification clock reset to
`now`; concretely `adaptive_interval 300 2 = 600` and
`adaptive_interval 300 10 = 1800`. -/
theorem continuing_notification_spacing (st : TelegramState)
    (stream_id : String) (t : ℚ) (ev : EventInfo)
    (hev : st.violence_events stream_id = some ev)
    (hcap : ev.notification_count < st.max_notifications) :
    ((should_send_notification st stream_id true t).1 = true ↔
      t - (st.last_notification_time stream_id).getD 0 ≥
        adaptive_interval st.notification_interval ev.notification_count) ∧
    (t - (st.last_notification_time stream_id).getD 0 ≥
        adaptive_interval st.notification_interval ev.notification_count →
      ((should_send_notification st stream_id true t).2.violence_events
          stream_id).map (fun e => e.notification_count) =
        some (ev.notification_count + 1) ∧
      (should_send_notification st stream_id true t).2.last_notification_time
        stream_id = some t) ∧
    adaptive_interval 300 2 = 600 ∧ adaptive_interval 300 10 = 1800 := by
  have h300 : adaptive_interval 300 2 = 600 := by
    norm_num [adaptive_interval]
  have h1800 : adaptive_interval 300 10 = 1800 := by
    norm_num [adaptive_interval]
  rcases hc : st.current_detection_confidence with _ | conf <;>
    simp only [should_send_notification, hev, hc, Bool.not_true,
      Bool.false_eq_true, if_false, ge_iff_le] <;>
    split_ifs with h1 h2 <;>
    simp_all [dictInsert] <;>
    omega

/-- Witness for `continuing_notification_spacing`: episode with one
notification sent at time 0; at `t = 500 ≥ 450 = 300 * 1.5` the "continuing"
notification fires and the count becomes 2. -/
theorem continuing_notification_spacing_witness :
    (should_send_notification (ongoing_test_state 1) "cam" true 500).1 = true ∧
    ((should_send_notification (ongoing_test_state 1) "cam" true 500).2.violence_events
        "cam").map (fun e => e.notification_count) = some 2 := by
  have h := continuing_notification_spacing (ongoing_test_state 1) "cam" 500
    { start_time := 0, last_detection := 0,
      notification_count := 1, max_confidence := 9/10 }
    (by simp [ongoing_test_state]) (by simp [ongoing_test_state])
  have hge : (500 : ℚ) - ((ongoing_test_state 1).last_notification_time "cam").getD 0 ≥
      adaptive_interval (ongoing_test_state 1).notification_interval 1 := by
    simp [ongoing_test_state, adaptive_interval]
    norm_num
  exact ⟨h.1.mpr hge, (h.2.1 hge).1⟩

/-- C7 (confirmed; single-step invariant): for an open episode,
`should_send_notification` on a further event never decreases
`notification_count`, preserves `notification_count ≤ max_notifications`,
and once the count has reached `max_notifications` the trigger is suppressed
(negative decision) with the count unchanged. -/
theorem notification_count_monotone_and_capped (st : TelegramState)
    (stream_id : String) (t : ℚ) (ev : EventInfo)
    (hev : st.violence_events stream_id = some ev) :
    ∃ ev' : EventInfo,
      (should_send_notification st stream_id true t).2.violence_events stream_id =
        some ev' ∧
      ev.notification_count ≤ ev'.notification_count ∧
      (ev.notification_count ≤ st.max_notifications →
        ev'.notification_count ≤ st.max_notifications) ∧
      (st.max_notifications ≤ ev.notification_count →
        (should_send_notification st stream_id true t).1 = false ∧
        ev'.notification_count = ev.notification_count) := by
  rcases hc : st.current_detection_confidence with _ | conf <;>
    simp only [should_send_notification, hev, hc, Bool.not_true,
      Bool.false_eq_true, if_false, ge_iff_le] <;>
    split_ifs with h1 h2 <;>
    refine ⟨_, dictInsert_self _ _ _, ?_, ?_, ?_⟩ <;>
    simp_all <;>
    omega

/-- Witness for `notification_count_monotone_and_capped`: an episode at the
cap (5 notifications already sent) suppresses a 6th trigger and keeps the
count at 5. -/
theorem notification_count_monotone_and_capped_witness :
    (should_send_notification (ongoing_test_state 5) "cam" true 10000).1 = false ∧
    ((should_send_notification (ongoing_test_state 5) "cam" true 10000).2.violence_events
        "cam").map (fun e => e.notification_count) = some 5 := by
  have h := notification_count_monotone_and_capped (ongoing_test_state 5) "cam" 10000
    { start_time := 0, last_detection := 0,
      notification_count := 5, max_confidence := 9/10 }
    (by simp [ongoing_test_state])
  obtain ⟨ev', hev', _, _, hsupp⟩ := h
  have h5 : (ongoing_test_state 5).max_notifications ≤ 5 := by
    simp [ongoing_test_state]
  obtain ⟨hfalse, hcount⟩ := hsupp h5
  exact ⟨hfalse, by rw [hev']; simp [hcount]⟩

/-! ## RTSPManager.add_stream (main.py lines 528–540) and the
`POST /api/streams` route (main.py lines 867–879) -/

/-- What `RTSPProcessor.__init__` records for a stream: the url and the
display name (`name or stream_id`: Python's `or` substitutes the id for an
empty name). -/
structure StreamEntry where
  rtsp_url : String
  name : String
deriving DecidableEq, Repr

/-- Construction of the registry entry by `RTSPProcessor.__init__`. -/
def mkStreamEntry (stream_id rtsp_url name : String) : StreamEntry :=
  { rtsp_url := rtsp_url, name := if name = "" then stream_id else name }

/-- The typed failure raised inside `add_stream`
(`ValueError(f"Stream {stream_id} already exists")`). -/
inductive AddStreamError
  | alreadyExists (stream_id : String)
deriving DecidableEq, Repr

/-- The message the raised `ValueError` carries. -/
def AddStreamError.message : AddStreamError → String
  | .alreadyExists stream_id => "Stream " ++ stream_id ++ " already exists"

/-- The `try` body of `RTSPManager.add_stream`: raise `AlreadyExists` when the
id is present, otherwise insert the new processor. -/
def add_stream_core (streams : String → Option StreamEntry)
    (stream_id rtsp_url name : String) :
    Except AddStreamError (String → Option StreamEntry) :=
  match streams stream_id with
  | some _ => .error (.alreadyExists stream_id)
  | none => .ok (dictInsert streams stream_id (mkStreamEntry stream_id rtsp_url name))

/-- `RTSPManager.add_stream`: the surrounding `except` catches every
exception (including the `AlreadyExists` `ValueError`), prints it, and
returns `False`; on success it returns `True`.  The caller only sees the
boolean and the (possibly updated) registry. -/
def add_stream (streams : String → Option StreamEntry)
    (stream_id rtsp_url name : String) :
    Bool × (String → Option StreamEntry) :=
  match add_stream_core streams stream_id rtsp_url name with
  | .ok streams1 => (true, streams1)
  | .error _ => (false, streams)

/-- The `POST /api/streams` route: when `add_stream` returns `False` it
raises `HTTPException(status_code=400, detail="Failed to add stream")`;
the raised-and-caught `AlreadyExists` message never reaches this point. -/
def add_stream_endpoint (streams : String → Option StreamEntry)
    (stream_id rtsp_url name : String) :
    Except (Nat × String) (String × (String → Option StreamEntry)) :=
  let r := add_stream streams stream_id rtsp_url name
  if r.1 then
    .ok ("Stream " ++ stream_id ++ " added successfully", r.2)
  else
    .error (400, "Failed to add stream")

/-! ## ConnectionManager (main.py lines 586–610)

WebSocket handles are modelled as natural-number identities; the subscriber
collection is a Python `list`, i.e. a `List` (not a set). -/

/-- `ConnectionManager.connect`: `self.active_connections.append(websocket)`
(unconditional append — no membership check). -/
def ConnectionManager.connect (active_connections : List Nat) (websocket : Nat) :
    List Nat :=
  active_connections ++ [websocket]

/-- Python's `list.remove(x)`: drop the first occurrence, or `None` when `x`
is absent (in which case `list.remove` raises `ValueError`). -/
def removeFirst : List Nat → Nat → Option (List Nat)
  | [], _ => none
  | x :: xs, w => if x = w then some xs else (removeFirst xs w).map (x :: ·)

/-- `ConnectionManager.disconnect`:
`self.active_connections.remove(websocket)` — raises `ValueError` when the
websocket is not in the list. -/
def ConnectionManager.disconnect (active_connections : List Nat)
    (websocket : Nat) : Except String (List Nat) :=
  match removeFirst active_connections websocket with
  | some l => .ok l
  | none => .error "ValueError: list.remove(x): x not in list"

theorem removeFirst_append_singleton_of_not_mem {l : List Nat} {w : Nat}
    (h : w ∉ l) : removeFirst (l ++ [w]) w = some l := by
  induction l with
  | nil => simp [removeFirst]
  | cons x xs ih =>
    have hx : x ≠ w := fun hxw => h (by simp [hxw])
    have hxs : w ∉ xs := fun hmem => h (by simp [hmem])
    simp [removeFirst, hx, ih hxs]

theorem removeFirst_eq_none_of_not_mem {l : List Nat} {w : Nat}
    (h : w ∉ l) : removeFirst l w = none := by
  induction l with
  | nil => rfl
  | cons x xs ih =>
    have hx : x ≠ w := fun hxw => h (by simp [hxw])
    have hxs : w ∉ xs := fun hmem => h (by simp [hmem])
    simp [removeFirst, hx, ih hxs]

/-! ## Claim theorems: registry and broadcast hub -/

/-- C8 counterexample: adding stream id "s1" twice. The second add fails,
but the failure surfaced to the API caller is the generic
`HTTPException(400, "Failed to add stream")` — not the `AlreadyExists`
message, which `add_stream` raises and immediately catches internally. -/
theorem duplicate_add_surfaces_generic_failure :
    add_stream_endpoint
        (dictInsert (fun _ => none) "s1" (mkStreamEntry "s1" "rtsp://a" "Cam A"))
        "s1" "rtsp://b" "Cam B" =
      .error (400, "Failed to add stream") ∧
    "Failed to add stream" ≠ AddStreamError.message (.alreadyExists "s1") := by
  constructor
  · rfl
  · decide

/-- C8 (amended): adding a stream whose id is already present raises the
typed `AlreadyExists` failure internally, but `add_stream` catches it and
reports only a generic failure (`False`, surfaced by the route as HTTP 400
"Failed to add stream"); the registry — in particular the existing entry for
that id — is left unchanged. -/
theorem duplicate_add_fails_and_preserves_entry
    (streams : String → Option StreamEntry)
    (stream_id rtsp_url name : String) (entry : StreamEntry)
    (h : streams stream_id = some entry) :
    add_stream_core streams stream_id rtsp_url name =
      .error (.alreadyExists stream_id) ∧
    add_stream streams stream_id rtsp_url name = (false, streams) ∧
    (add_stream streams stream_id rtsp_url name).2 stream_id = some entry ∧
    add_stream_endpoint streams stream_id rtsp_url name =
      .error (400, "Failed to add stream") := by
  have hcore : add_stream_core streams stream_id rtsp_url name =
      .error (.alreadyExists stream_id) := by
    unfold add_stream_core
    rw [h]
  refine ⟨hcore, ?_, ?_, ?_⟩ <;>
    simp [add_stream, add_stream_endpoint, hcore, h]

/-- Witness for `duplicate_add_fails_and_preserves_entry` on a one-entry
registry. -/
theorem duplicate_add_fails_and_preserves_entry_witness :
    add_stream
        (dictInsert (fun _ => none) "s1" (mkStreamEntry "s1" "rtsp://a" "Cam A"))
        "s1" "rtsp://b" "Cam B" =
      (false, dictInsert (fun _ => none) "s1" (mkStreamEntry "s1" "rtsp://a" "Cam A")) ∧
    (add_stream
        (dictInsert (fun _ => none) "s1" (mkStreamEntry "s1" "rtsp://a" "Cam A"))
        "s1" "rtsp://b" "Cam B").2 "s1" =
      some (mkStreamEntry "s1" "rtsp://a" "Cam A") := by
  have h := duplicate_add_fails_and_preserves_entry
    (dictInsert (fun _ => none) "s1" (mkStreamEntry "s1" "rtsp://a" "Cam A"))
    "s1" "rtsp://b" "Cam B" (mkStreamEntry "s1" "rtsp://a" "Cam A")
    (dictInsert_self _ _ _)
  exact ⟨h.2.1, h.2.2.1⟩

/-- C9 counterexample: the subscriber collection is a list, not a set —
connecting an already-connected subscriber appends a duplicate
(`connect [0] 0 = [0, 0] ≠ [0]`), and disconnecting an absent subscriber
does not succeed: `list.remove` raises `ValueError`. -/
theorem connect_duplicates_and_disconnect_absent_fails :
    ConnectionManager.connect [0] 0 = [0, 0] ∧
    ConnectionManager.connect [0] 0 ≠ [0] ∧
    ConnectionManager.disconnect [] 0 =
      .error "ValueError: list.remove(x): x not in list" := by
  refine ⟨rfl, by decide, rfl⟩

/-- C9 (amended): `connect` appends unconditionally, so a subscriber already
in the list occurs once more afterwards (no idempotence); `disconnect` of an
absent subscriber fails with `ValueError` (not a no-op); `disconnect` after
a fresh `connect` of a previously absent subscriber restores the original
list (removal of the first — here only — occurrence). -/
theorem connect_append_disconnect_remove (active_connections : List Nat)
    (websocket : Nat) :
    (websocket ∈ active_connections →
      (ConnectionManager.connect active_connections websocket).count websocket =
        active_connections.count websocket + 1) ∧
    (websocket ∉ active_connections →
      ConnectionManager.disconnect active_connections websocket =
        .error "ValueError: list.remove(x): x not in list" ∧
      ConnectionManager.disconnect
          (ConnectionManager.connect active_connections websocket) websocket =
        .ok active_connections) := by
  constructor
  · intro _
    simp [ConnectionManager.connect]
  · intro h
    constructor
    · unfold ConnectionManager.disconnect
      rw [removeFirst_eq_none_of_not_mem h]
    · unfold ConnectionManager.disconnect ConnectionManager.connect
      rw [removeFirst_append_singleton_of_not_mem h]

/-- Witness for `connect_append_disconnect_remove` on the list `[1, 2]`. -/
theorem connect_append_disconnect_remove_witness :
    (ConnectionManager.connect [1, 2] 2).count 2 = [1, 2].count 2 + 1 ∧
    ConnectionManager.disconnect (ConnectionManager.connect [1, 2] 3) 3 =
      .ok [1, 2] := by
  have h := connect_append_disconnect_remove [1, 2] 2
  have h' := connect_append_disconnect_remove [1, 2] 3
  exact ⟨h.1 (by decide), (h'.2 (by decide)).2⟩

/-! ## Result draining (`RTSPProcessor.get_latest_results`, main.py lines
511–520, and `RTSPManager.get_latest_detections`, lines 574–583) -/

/-- `DetectionResult` (main.py lines 80–85); the timestamp is an exact
rational, the thumbnail is the base64 string. -/
structure DetectionResult where
  stream_id : String
  timestamp : ℚ
  is_violence : Bool
  confidence : ℚ
  frame_data : String
deriving DecidableEq, Repr

/-- `RTSPProcessor.get_latest_results`: pop from the FIFO results queue
while it is nonempty and fewer than `max_results` results have been taken;
returns the drained results in queue order together with what remains in the
queue. -/
def get_latest_results :
    List DetectionResult → Nat → List DetectionResult × List DetectionResult
  | q, 0 => ([], q)
  | [], _ + 1 => ([], [])
  | r :: q, n + 1 =>
    let p := get_latest_results q n
    (r :: p.1, p.2)

/-- The comparison realised by
`all_results.sort(key=lambda x: x.timestamp, reverse=True)`: descending by
timestamp (both sorts are stable, so `mergeSort` with this `le` computes the
same list). -/
def byTimestampDesc (a b : DetectionResult) : Bool :=
  b.timestamp ≤ a.timestamp

/-- `RTSPManager.get_latest_detections`: drain each stream's queue with
`get_latest_results` (default `max_results = 10`), concatenate, and sort by
timestamp descending.  The second component is what the drain leaves in the
per-stream queues. -/
def get_latest_detections (queues : List (List DetectionResult)) :
    List DetectionResult × List (List DetectionResult) :=
  let drained := queues.map (fun q => get_latest_results q 10)
  ((drained.map Prod.fst).flatten.mergeSort byTimestampDesc,
    drained.map Prod.snd)

theorem get_latest_results_eq_take_drop (q : List DetectionResult) (n : Nat) :
    get_latest_results q n = (q.take n, q.drop n) := by
  induction q generalizing n with
  | nil => cases n <;> rfl
  | cons r q ih =>
    cases n with
    | zero => rfl
    | succ n => simp [get_latest_results, ih]

theorem get_latest_detections_fst (queues : List (List DetectionResult)) :
    (get_latest_detections queues).1 =
      ((queues.map (fun q => q.take 10)).flatten).mergeSort byTimestampDesc := by
  simp [get_latest_detections, get_latest_results_eq_take_drop,
    Function.comp_def]

theorem get_latest_detections_snd (queues : List (List DetectionResult)) :
    (get_latest_detections queues).2 = queues.map (fun q => q.drop 10) := by
  simp [get_latest_detections, get_latest_results_eq_take_drop,
    Function.comp_def]

theorem get_latest_detections_perm (queues : List (List DetectionResult)) :
    (get_latest_detections queues).1.Perm
      ((queues.map (fun q => q.take 10)).flatten) := by
  rw [get_latest_detections_fst]
  exact List.mergeSort_perm _ _

/-- A detection result with the given timestamp (used for concrete
instances). -/
def mkResult (t : ℚ) : DetectionResult :=
  { stream_id := "s", timestamp := t, is_violence := false,
    confidence := 0, frame_data := "" }

/-! ## Claim theorems: result draining -/

/-- C2 counterexample: a single stream whose queue holds 11 pending results.
One drain call returns only 10 of them (`get_latest_results` stops at its
`max_results = 10` cap), and the 11th result is left behind in the queue. -/
theorem drain_leaves_result_behind :
    (get_latest_detections
        [[mkResult 0, mkResult 1, mkResult 2, mkResult 3, mkResult 4, mkResult 5,
          mkResult 6, mkResult 7, mkResult 8, mkResult 9, mkResult 10]]).1.length = 10 ∧
    [[mkResult 0, mkResult 1, mkResult 2, mkResult 3, mkResult 4, mkResult 5,
      mkResult 6, mkResult 7, mkResult 8, mkResult 9, mkResult 10]].flatten.length = 11 ∧
    (get_latest_detections
        [[mkResult 0, mkResult 1, mkResult 2, mkResult 3, mkResult 4, mkResult 5,
          mkResult 6, mkResult 7, mkResult 8, mkResult 9, mkResult 10]]).2 =
      [[mkResult 10]] := by
  refine ⟨?_, by decide, ?_⟩
  · rw [(get_latest_detections_perm _).length_eq]
    decide
  · rw [get_latest_detections_snd]
    decide

/-- C2 (amended): one drain call takes up to 10 results per stream queue (in
FIFO order), merges them and sorts the merged list by timestamp descending;
each queue keeps exactly its results beyond the first 10.  Whenever every
queue holds at most 10 pending results, the drain does return all pending
results across all streams with no result left behind. -/
theorem drain_up_to_ten_per_stream_sorted
    (queues : List (List DetectionResult)) :
    (get_latest_detections queues).1.Perm
      ((queues.map (fun q => q.take 10)).flatten) ∧
    List.Pairwise (fun a b => b.timestamp ≤ a.timestamp)
      (get_latest_detections queues).1 ∧
    (get_latest_detections queues).2 = queues.map (fun q => q.drop 10) ∧
    ((∀ q ∈ queues, q.length ≤ 10) →
      (get_latest_detections queues).1.Perm queues.flatten ∧
      ∀ l ∈ (get_latest_detections queues).2, l = []) := by
  have hperm := get_latest_detections_perm queues
  refine ⟨hperm, ?_, get_latest_detections_snd queues, ?_⟩
  · rw [get_latest_detections_fst]
    have hpw := @List.sorted_mergeSort DetectionResult byTimestampDesc
      (fun a b c hab hbc => by
        simp only [byTimestampDesc, decide_eq_true_eq] at hab hbc ⊢
        exact le_trans hbc hab)
      (fun a b => by
        simp only [byTimestampDesc, Bool.or_eq_true, decide_eq_true_eq]
        exact le_total b.timestamp a.timestamp)
      ((queues.map (fun q => q.take 10)).flatten)
    exact hpw.imp (fun h => by simpa [byTimestampDesc] using h)
  · intro hshort
    constructor
    · have hmap : queues.map (fun q => q.take 10) = queues := by
        rw [List.map_congr_left (fun q hq => List.take_of_length_le (hshort q hq))]
        simp
      rw [hmap] at hperm
      exact hperm
    · intro l hl
      rw [get_latest_detections_snd] at hl
      obtain ⟨q, hq, rfl⟩ := List.mem_map.mp hl
      exact List.drop_eq_nil_of_le (hshort q hq)

/-- Witness for `drain_up_to_ten_per_stream_sorted` on two short queues:
the drained list is a permutation of all three pending results, sorted by
timestamp descending, and both queues are left empty. -/
theorem drain_up_to_ten_per_stream_sorted_witness :
    (get_latest_detections [[mkResult 1, mkResult 3], [mkResult 2]]).1.Perm
      [mkResult 1, mkResult 3, mkResult 2] ∧
    List.Pairwise (fun a b => b.timestamp ≤ a.timestamp)
      (get_latest_detections [[mkResult 1, mkResult 3], [mkResult 2]]).1 ∧
    ∀ l ∈ (get_latest_detections [[mkResult 1, mkResult 3], [mkResult 2]]).2,
      l = [] := by
  have h := drain_up_to_ten_per_stream_sorted [[mkResult 1, mkResult 3], [mkResult 2]]
  have hfull := h.2.2.2 (by decide)
  refine ⟨?_, h.2.1, hfull.2⟩
  have := hfull.1
  simpa using this

/-! ## Claim theorems: frame buffer, detection guard, threshold, fps -/

/-- C4 counterexample: with configured `buffer_size = 0` (the settings model
does not constrain the value), a single push leaves one frame in the buffer,
because Python's trim `frame_buffer[-0:]` keeps the whole list — so the buffer
length exceeds the configured capacity. -/
theorem frame_buffer_exceeds_zero_capacity :
    (push_all 0 [(0 : Nat)]).length = 1 ∧ ¬ (push_all 0 [(0 : Nat)]).length ≤ 0 := by
  constructor <;> decide

/-- C4 (amended: positive capacity): for every positive configured capacity
and every sequence of pushed frames, the buffer length never exceeds the
capacity, and once at least `capacity` frames have been pushed the buffer is
exactly the most recent `capacity` frames in arrival order. -/
theorem frame_buffer_bounded_and_recent {c : Nat} (hc : 0 < c)
    (frames : List α) :
    (push_all c frames).length ≤ c ∧
      (c ≤ frames.length →
        push_all c frames = frames.drop (frames.length - c) ∧
        (push_all c frames).length = c) := by
  refine ⟨push_all_length_le hc frames, fun hfull => ?_⟩
  rw [push_all_eq_lastN hc]
  refine ⟨rfl, ?_⟩
  rw [lastN_length]
  omega

/-- Witness for `frame_buffer_bounded_and_recent` at capacity 2 and
pushes [10, 20, 30]. -/
theorem frame_buffer_bounded_and_recent_witness :
    (push_all 2 [10, 20, 30]).length ≤ 2 ∧ push_all 2 [10, 20, 30] = [20, 30] := by
  have h := frame_buffer_bounded_and_recent (c := 2) (by decide) [10, 20, 30]
  refine ⟨h.1, ?_⟩
  rw [(h.2 (by decide)).1]
  decide

/-- C3 counterexample: with configured `buffer_size = 0`, after one push the
detection loop invokes the inference collaborator on a buffer of length 1,
which is not equal to the configured capacity 0 — the guard in the code is
`>=`, not `=`. -/
theorem detection_fires_above_zero_capacity :
    detection_loop_iter (push_all 0 [(0 : Nat)]) 0 = some [0] ∧
      (push_all 0 [(0 : Nat)]).length ≠ 0 := by
  constructor <;> decide

/-- C3 (amended: positive capacity): for every positive configured capacity
and every buffer produced by pushes from empty, the detection loop invokes
the inference collaborator exactly when the buffer length equals the capacity
(the `>=` guard coincides with `=` under the buffer-length invariant), the
window handed to inference is the whole buffer, and a sub-full buffer yields
no inference call and no result. -/
theorem detection_fires_iff_buffer_full {c : Nat} (hc : 0 < c)
    (frames : List α) :
    (detection_loop_iter (push_all c frames) c ≠ none ↔
      (push_all c frames).length = c) ∧
    (detection_loop_iter (push_all c frames) c ≠ none →
      detection_loop_iter (push_all c frames) c = some (push_all c frames)) ∧
    ((push_all c frames).length < c → detection_loop_iter (push_all c frames) c = none) := by
  have hle := push_all_length_le hc frames
  unfold detection_loop_iter detect_violence
  refine ⟨?_, ?_, ?_⟩
  · constructor
    · intro h
      by_contra hne
      have hlt : (push_all c frames).length < c := by omega
      rw [if_neg (by omega)] at h
      exact h rfl
    · intro h
      rw [if_pos (by omega), if_neg (by omega)]
      simp
  · intro h
    by_cases hfull : (push_all c frames).length ≥ c
    · rw [if_pos hfull, if_neg (by omega)]
    · rw [if_neg hfull] at h
      exact absurd rfl h
  · intro hlt
    rw [if_neg (by omega)]

/-- Witness for `detection_fires_iff_buffer_full` at capacity 2: after two
pushes the loop fires on the full window; after one push it does not. -/
theorem detection_fires_iff_buffer_full_witness :
    detection_loop_iter (push_all 2 [10, 20]) 2 = some [10, 20] ∧
      detection_loop_iter (push_all 2 [(10 : Nat)]) 2 = none := by
  refine ⟨?_, ?_⟩
  · have h := (detection_fires_iff_buffer_full (c := 2) (by decide) [10, 20]).2.1
      (by decide)
    rw [h]
    decide
  · exact (detection_fires_iff_buffer_full (c := 2) (by decide) [(10 : Nat)]).2.2
      (by decide)

/-- C5 (confirmed): the event flag returned by `predict` is `true` iff the
violence probability is strictly greater than the configured threshold; in
particular with threshold 0.7, probability 0.8 gives `true`, 0.65 gives
`false`, and 0.7 itself gives `false`. -/
theorem predict_event_iff_prob_gt_threshold :
    (∀ p t : ℚ, (predict_decision p t).1 = true ↔ p > t) ∧
    (predict_decision (8/10) (7/10)).1 = true ∧
    (predict_decision (65/100) (7/10)).1 = false ∧
    (predict_decision (7/10) (7/10)).1 = false := by
  refine ⟨fun p t => ?_, by norm_num [predict_decision], by norm_num [predict_decision],
    by norm_num [predict_decision]⟩
  simp [predict_decision]

/-- C10 (confirmed): the fps recomputation is guarded by
`current_time - last_time > 0`: under the guard the denominator is nonzero
and fps becomes its reciprocal; when two consecutive reads carry the same
timestamp the guard is false and the stored fps is retained unchanged. -/
theorem fps_division_guarded (fps last_time current_time : ℚ) :
    (current_time = last_time → update_fps fps last_time current_time = fps) ∧
    (current_time - last_time > 0 →
      current_time - last_time ≠ 0 ∧
      update_fps fps last_time current_time = 1 / (current_time - last_time)) := by
  constructor
  · intro h
    simp [update_fps, h]
  · intro h
    exact ⟨ne_of_gt h, by simp [update_fps, h]⟩

/-- Witness for `fps_division_guarded`: equal timestamps keep fps = 2;
a 0.5 s gap yields fps = 2. -/
theorem fps_division_guarded_witness :
    update_fps 2 5 5 = 2 ∧ update_fps 7 5 (11/2) = 2 := by
  constructor
  · exact (fps_division_guarded 2 5 5).1 rfl
  · have h := ((fps_division_guarded 7 5 (11/2)).2 (by norm_num)).2
    rw [h]
    norm_num

end ViolenceRecognition
